import Mathlib

/-!
Shallow embedding of the wormhole-rhythm game engine
(`src/src/engine` / `src/unnamed/part_000`: `PhysicsEngine` and `GameEngine`).

Conventions of the embedding:
* JS numbers are modelled as `ℚ` (all constants in the engine are decimal
  literals, and every operation used is exact on rationals); `Math.floor`
  is `Int.floor`; integer-valued counters (`score`, `combo`, ...) are `ℤ`.
* Times are in milliseconds (`Date.now()` is passed in as a `now : ℚ`
  parameter); `deltaTime` is in seconds as in the source.
* Randomness (`Math.random()`-derived values) and input-manager reads are
  passed in as explicit parameters.
* Mutation of the engine's fields is modelled by explicit state passing:
  each private method becomes a function `... → Engine → Engine`.
* Audio calls and console logging are effect-free collaborators and have no
  state in the model; visual effects are part of the engine state (the
  `visualEffects` array) and are modelled.
-/

namespace WormholeRhythm

/-- Portal frequency class (`'bass' | 'snare' | 'hihat'`). -/
inductive PortalType where
  | bass | snare | hihat
  deriving DecidableEq, Repr

/-- Portal lifecycle tag (`'approach' | 'active' | 'missed'`). -/
inductive PortalPosition where
  | approach | active | missed
  deriving DecidableEq, Repr

/-- Hit quality tiers (`'perfect' | 'great' | 'good' | 'hit' | 'miss'`). -/
inductive Quality where
  | perfect | great | good | hit | miss
  deriving DecidableEq, Repr

/-- Game status enum used by `GameState.status`. -/
inductive GameStatus where
  | menu | playing | paused | level_complete | gameover
  deriving DecidableEq, Repr

/-- 2-D point (canvas pixel coordinates). -/
structure Vec2 where
  x : ℚ
  y : ℚ
  deriving DecidableEq, Repr

/-- 3-D point (normalized coordinates), used by portals and effects. -/
structure Vec3 where
  x : ℚ
  y : ℚ
  z : ℚ
  deriving DecidableEq, Repr

/-- A whip trail point (`{x, y, alpha}`). -/
structure TrailPoint where
  x : ℚ
  y : ℚ
  alpha : ℚ
  deriving DecidableEq, Repr

/-- Waveform kind of a whip's wave pattern. -/
inductive WaveType where
  | sine | cosine | sawtooth | square
  deriving DecidableEq, Repr

/-- Wave pattern attached to a whip (`createWavePattern` output). -/
structure WavePattern where
  amplitude : ℚ
  frequency : ℚ
  phase : ℚ
  decay : ℚ
  waveType : WaveType
  deriving DecidableEq, Repr

/-- Quadratic-Bezier trajectory of a whip (`{start, control, end}`). -/
structure Trajectory where
  start : Vec2
  control : Vec2
  «end» : Vec2
  deriving DecidableEq, Repr

/-- A spawned portal target (fields as in the `Portal` type used by
`GameEngine`; the `type` field is named `type` as in the source). -/
structure Portal where
  id : String
  type : PortalType
  x : ℚ
  y : ℚ
  z : ℚ
  size : ℚ
  speed : ℚ
  horizontalSpeed : ℚ
  color : String
  frequency : ℚ
  frequencyRange : String
  spawnTime : ℚ
  targetTime : ℚ
  position : PortalPosition
  isTraveling : Bool
  travelProgress : ℚ
  isMoving : Bool
  travelLane : ℕ
  beatMatch : Bool
  hitQuality : Option Quality
  deriving DecidableEq, Repr

/-- A fired whip projectile (fields as in the `Whip` type used by
`GameEngine`). -/
structure Whip where
  id : String
  position : Vec2
  targetPosition : Vec2
  trajectory : Trajectory
  velocity : ℚ
  isActive : Bool
  isExtending : Bool
  extensionProgress : ℚ
  trailPoints : List TrailPoint
  cosmicEnergy : ℚ
  whipLength : ℚ
  whipAngle : ℚ
  createdTime : ℚ
  hitDetection : Bool
  wavePattern : WavePattern
  cursorSpeed : ℚ
  deriving DecidableEq, Repr

/-- Payload (`data`) of a visual effect; one variant per effect kind pushed
by the engine, carrying the fields the source stores. -/
inductive EffectData where
  | beatPulse (beatType : PortalType)
  | waveTrail (wavePattern : WavePattern) (speedFactor : ℚ) (isTouchInput : Bool)
  | touchPulse (color : String) (particleCount : ℕ)
  | portalTravel (portalType : PortalType) (dimension : String)
  | portalHit (quality : Quality) (portalType : PortalType)
  | missParticle
  | levelTransition (levelIndex : ℕ)
  deriving DecidableEq, Repr

/-- An ephemeral cosmetic record (`VisualEffect`). -/
structure VisualEffect where
  id : String
  type : String
  position : Vec3
  startTime : ℚ
  duration : ℚ
  data : EffectData
  deriving DecidableEq, Repr

/-- The aggregated `GameState` record. -/
structure GameState where
  status : GameStatus
  score : ℤ
  combo : ℤ
  health : ℚ
  level : ℤ
  currentSong : String
  currentSongProgress : ℚ
  maxCombo : ℤ
  accuracy : ℚ
  gameMode : String
  levelProgress : ℚ
  portalsHit : ℤ
  portalsTotal : ℤ
  currentDifficulty : String
  transitionActive : Bool
  deriving DecidableEq, Repr

/-- Static per-level configuration (`LevelData`). -/
structure LevelData where
  id : ℕ
  name : String
  description : String
  difficulty : String
  requiredHits : ℤ
  portalSpeed : ℚ
  spawnRate : ℚ
  background : String
  music : String
  timeLimit : ℚ
  bonusScore : ℤ
  deriving DecidableEq, Repr

/-- Deferred-callback kinds: the two `setTimeout` bodies of the engine
(`triggerLevelTransition` scheduled from `triggerPortalTravel`, and
`proceedToNextLevel` scheduled from `triggerLevelTransition`). -/
inductive PendingKind where
  | levelTransition
  | proceedToNextLevel
  deriving DecidableEq, Repr

/-- A scheduled deferred callback with its due wall-clock time (ms). -/
structure PendingEvent where
  kind : PendingKind
  due : ℚ
  deriving DecidableEq, Repr

/-- The mutable state of `GameEngine` that the modelled methods touch. -/
structure Engine where
  gameState : GameState
  portals : List Portal
  activeWhips : List Whip
  visualEffects : List VisualEffect
  currentLevelIndex : ℕ
  levelStartTime : ℚ
  currentDimension : String
  portalSpawnTimer : ℚ
  beatTimer : ℚ
  currentBeat : ℕ
  gameTime : ℚ
  audioEnabled : Bool
  pending : List PendingEvent
  deriving DecidableEq, Repr

/-- The static level table of `GameEngine.levels`. -/
def levels : List LevelData :=
  [ { id := 1, name := "Cosmic Void",
      description := "Welcome to the wormhole dimensions",
      difficulty := "easy", requiredHits := 10, portalSpeed := 0.3,
      spawnRate := 0.5, background := "cosmic_void",
      music := "cosmic_theme_music.mp3", timeLimit := 60, bonusScore := 1000 },
    { id := 2, name := "Stellar Nebula",
      description := "Navigate through the stellar clouds",
      difficulty := "normal", requiredHits := 15, portalSpeed := 0.4,
      spawnRate := 0.7, background := "stellar_nebula",
      music := "rhythm_game_energetic.mp3", timeLimit := 75, bonusScore := 2000 },
    { id := 3, name := "Quantum Field",
      description := "Master the quantum beats",
      difficulty := "hard", requiredHits := 20, portalSpeed := 0.5,
      spawnRate := 0.9, background := "quantum_field",
      music := "epic_journey_music.mp3", timeLimit := 90, bonusScore := 3000 } ]

/-- Source `beatInterval = 500` ms between beats (120 BPM). -/
def beatInterval : ℚ := 500

/-- Source `getCurrentLevel(): LevelData | null` — `this.levels[this.currentLevelIndex] || null`. -/
def getCurrentLevel (e : Engine) : Option LevelData :=
  levels.get? e.currentLevelIndex

/-- Source `updateCombo(increment)`: `newCombo = Math.max(0, combo + increment)`,
`maxCombo = Math.max(maxCombo, newCombo)`. -/
def updateCombo (gs : GameState) (increment : ℤ) : GameState :=
  let newCombo := max 0 (gs.combo + increment)
  let maxCombo := max gs.maxCombo newCombo
  { gs with combo := newCombo, maxCombo := maxCombo }

/-- Source `endGame()`: sets status to `'gameover'` (and stops audio, a collaborator
call with no modelled state). -/
def endGame (gs : GameState) : GameState :=
  { gs with status := GameStatus.gameover }

/-- Source `updateHealth(change)`: `newHealth = Math.max(0, Math.min(100, health + change))`;
then `endGame()` when `newHealth <= 0`. -/
def updateHealth (gs : GameState) (change : ℚ) : GameState :=
  let newHealth := max 0 (min 100 (gs.health + change))
  let gs' := { gs with health := newHealth }
  if newHealth ≤ 0 then endGame gs' else gs'

/-- The combo multiplier of `handleScore`:
`Math.min(1 + combo * 0.02, 3)`. -/
def comboMultiplier (combo : ℤ) : ℚ :=
  min (1 + (combo : ℚ) * 0.02) 3

/-- Source `handleScore(quality, baseScore)`: adds
`Math.floor(baseScore * comboMultiplier)` to the score, then `updateCombo(1)`.
(The combo-bonus sound on every tenth combo is an audio collaborator call.) -/
def handleScore (gs : GameState) (_quality : Quality) (baseScore : ℤ) : GameState :=
  let finalScore : ℤ := ⌊(baseScore : ℚ) * comboMultiplier gs.combo⌋
  updateCombo { gs with score := gs.score + finalScore } 1

/-- The timing judgement of the live hit-resolution path
(`handlePortalHit`, lines computing `quality` and `score`): returns the
quality tier and the base score for a given `beatMatch` flag and absolute
time difference (ms). -/
def hitJudgement (beatMatch : Bool) (timeDiff : ℚ) : Quality × ℤ :=
  if beatMatch ∧ timeDiff ≤ 100 then
    let quality := if timeDiff ≤ 30 then Quality.perfect
      else if timeDiff ≤ 60 then Quality.great else Quality.good
    let score : ℤ := if quality = Quality.perfect then 1500
      else if quality = Quality.great then 1200 else 900
    (quality, score)
  else
    let quality := if timeDiff ≤ 30 then Quality.perfect
      else if timeDiff ≤ 60 then Quality.great
      else if timeDiff ≤ 100 then Quality.good
      else if timeDiff ≤ 200 then Quality.hit else Quality.miss
    let score : ℤ := if quality = Quality.perfect then 1000
      else if quality = Quality.great then 800
      else if quality = Quality.good then 600
      else if quality = Quality.hit then 400 else 0
    (quality, score)

/-- Source `createMissEffect(portal)`: the particle effect pushed on a miss.
(The `Date.now()/Math.random()` suffix of the source's id string is
randomness; the id prefix is kept.) -/
def createMissEffect (now : ℚ) (p : Portal) : VisualEffect :=
  { id := "miss_", type := "particle",
    position := { x := p.x, y := p.y, z := p.z },
    startTime := now, duration := 500, data := EffectData.missParticle }

/-- Source `handlePortalMiss(portal)`: tags the portal `hitQuality = 'miss'`,
calls `updateCombo(0)`, `updateHealth(-1)`, plays the miss sound (audio
collaborator) and pushes the miss effect. -/
def handlePortalMiss (now : ℚ) (p : Portal) (e : Engine) : Engine :=
  let portals' := e.portals.map fun q =>
    if q.id = p.id then { q with hitQuality := some Quality.miss } else q
  let gs₁ := updateCombo e.gameState 0
  let gs₂ := updateHealth gs₁ (-1)
  { e with portals := portals',
           gameState := gs₂,
           visualEffects := e.visualEffects ++ [createMissEffect now p] }

/-- One portal's step inside the `updateFroggerPortals` loop: a moving
portal translates by `horizontalSpeed * deltaTime`; if its new `x` exceeds
`1.2` it is removed (`none`); otherwise `position` becomes `'active'` iff
`0.3 < x < 0.7` (else `'approach'`) and `beatMatch` is set iff the position
is `'active'`. Non-moving portals are untouched. -/
def movePortal (deltaTime : ℚ) (p : Portal) : Option Portal :=
  if p.isMoving then
    let x' := p.x + p.horizontalSpeed * deltaTime
    if 1.2 < x' then none
    else
      let pos := if 0.3 < x' ∧ x' < 0.7 then PortalPosition.active
        else PortalPosition.approach
      some { p with x := x', position := pos,
                    beatMatch := decide (pos = PortalPosition.active) }
  else some p

/-- The movement/removal part of `updateFroggerPortals(deltaTime)` (the
`this.portals.forEach` loop). The source removes by `id` from the live
array while iterating the original one; since portal ids are unique by
construction, the net effect is this `filterMap`. -/
def moveFroggerPortals (deltaTime : ℚ) (ps : List Portal) : List Portal :=
  ps.filterMap (movePortal deltaTime)

/-- Source `spawnPortals(deltaTime)`: advances `portalSpawnTimer`; when it reaches
`1 / currentLevel.spawnRate` the timer resets and `spawnRandomPortal()`
pushes one portal. The portal that `spawnRandomPortal` would build from
`Math.random()` and `Date.now()` is supplied as `freshPortal`. When there is
no current level the method returns without touching the timer. -/
def spawnPortals (deltaTime : ℚ) (freshPortal : Portal) (e : Engine) : Engine :=
  match getCurrentLevel e with
  | none => e
  | some lvl =>
    let timer := e.portalSpawnTimer + deltaTime
    let spawnInterval := 1 / lvl.spawnRate
    if spawnInterval ≤ timer then
      { e with portalSpawnTimer := 0, portals := e.portals ++ [freshPortal] }
    else
      { e with portalSpawnTimer := timer }

/-- Source `updateFroggerPortals(deltaTime)`: the movement loop followed by the
rate-based spawn path. -/
def updateFroggerPortals (deltaTime : ℚ) (freshPortal : Portal) (e : Engine) :
    Engine :=
  spawnPortals deltaTime freshPortal
    { e with portals := moveFroggerPortals deltaTime e.portals }

/-- Trail-point decay inside `updateWhips`: `alpha -= deltaTime * 2`, points
pruned when `alpha <= 0`. -/
def decayTrail (deltaTime : ℚ) (ts : List TrailPoint) : List TrailPoint :=
  (ts.map fun t => { t with alpha := t.alpha - deltaTime * 2 }).filter
    fun t => 0 < t.alpha

/-- One whip's step inside `updateWhips`: `extensionProgress += deltaTime*2`;
if the result is `>= 1` the progress is clamped to `1`, the whip is
deactivated and dropped from the list in this same tick (`return false`);
otherwise its trail decays and it is kept. -/
def stepWhip (deltaTime : ℚ) (w : Whip) : Option Whip :=
  let progress := w.extensionProgress + deltaTime * 2
  if 1 ≤ progress then none
  else some { w with extensionProgress := progress,
                     trailPoints := decayTrail deltaTime w.trailPoints }

/-- Source `updateWhips(deltaTime)`: `this.activeWhips = this.activeWhips.filter(...)`
with the in-place mutations of `stepWhip`. -/
def updateWhips (deltaTime : ℚ) (ws : List Whip) : List Whip :=
  ws.filterMap (stepWhip deltaTime)

/-- Source `updateVisualEffects(deltaTime)`: prunes effects whose
`(Date.now() - startTime) / duration` exceeds 1. -/
def updateVisualEffects (now : ℚ) (es : List VisualEffect) : List VisualEffect :=
  es.filter fun ef => (now - ef.startTime) / ef.duration ≤ 1

/-- Source `getWhipCurrentPosition(whip)`: quadratic Bezier evaluated at
`t = extensionProgress`. -/
def getWhipCurrentPosition (w : Whip) : Vec2 :=
  let t := w.extensionProgress
  let s := w.trajectory.start
  let c := w.trajectory.control
  let e := w.trajectory.«end»
  { x := (1 - t) ^ 2 * s.x + 2 * (1 - t) * t * c.x + t ^ 2 * e.x,
    y := (1 - t) ^ 2 * s.y + 2 * (1 - t) * t * c.y + t ^ 2 * e.y }

/-- Source `isWhipCollidingWithPortal(whip, portal)`: the source compares the
Euclidean distance from the whip head to the portal center (in pixels,
`W`/`H` the canvas size) against `hitRadius = portal.size * W * 0.8`.
Stated in the equivalent squared form (the distance is nonnegative, so
`dist < r ↔ 0 < r ∧ dist² < r²`), which avoids irrational square roots. -/
def isWhipCollidingWithPortal (W H : ℚ) (w : Whip) (p : Portal) : Bool :=
  let cur := getWhipCurrentPosition w
  let px := p.x * W
  let py := p.y * H
  let dist2 := (cur.x - px) ^ 2 + (cur.y - py) ^ 2
  let hitRadius := p.size * W * 0.8
  decide (0 < hitRadius ∧ dist2 < hitRadius ^ 2)

/-- Source `createHitEffect(portal, quality)`. -/
def createHitEffect (now : ℚ) (p : Portal) (q : Quality) : VisualEffect :=
  { id := "hit_", type := "portal_hit",
    position := { x := p.x, y := p.y, z := p.z },
    startTime := now, duration := 1000,
    data := EffectData.portalHit q p.type }

/-- The travel effect pushed by `triggerPortalTravel`. -/
def createTravelEffect (now : ℚ) (p : Portal) : VisualEffect :=
  { id := "travel_", type := "portal_travel",
    position := { x := p.x, y := p.y, z := p.z },
    startTime := now, duration := 2000,
    data := EffectData.portalTravel p.type p.id }

/-- Source `triggerPortalTravel(portal)`: marks the portal traveling, pushes the
travel effect, and — if the (pre-increment) hit count already meets the
level's requirement — schedules `triggerLevelTransition` 1000 ms later. -/
def triggerPortalTravel (now : ℚ) (p : Portal) (e : Engine) : Engine :=
  let portals' := e.portals.map fun q =>
    if q.id = p.id then { q with isTraveling := true, travelProgress := 0 } else q
  let e₁ := { e with portals := portals',
                     visualEffects := e.visualEffects ++ [createTravelEffect now p] }
  match getCurrentLevel e₁ with
  | some lvl =>
    if lvl.requiredHits ≤ e₁.gameState.portalsHit then
      { e₁ with pending := e₁.pending ++
          [{ kind := PendingKind.levelTransition, due := now + 1000 }] }
    else e₁
  | none => e₁

/-- The level-transition effect pushed by `triggerLevelTransition`. -/
def createLevelTransitionEffect (now : ℚ) (levelIndex : ℕ) : VisualEffect :=
  { id := "level_transition_", type := "level_transition",
    position := { x := 0.5, y := 0.5, z := 0 },
    startTime := now, duration := 3000,
    data := EffectData.levelTransition levelIndex }

/-- Source `triggerLevelTransition()`: no-op unless the status is `'playing'`;
otherwise sets `status = 'level_complete'`, `transitionActive = true`,
pushes the transition effect and schedules `proceedToNextLevel` 3000 ms
later. -/
def triggerLevelTransition (now : ℚ) (e : Engine) : Engine :=
  if e.gameState.status ≠ GameStatus.playing then e
  else
    { e with
      gameState := { e.gameState with status := GameStatus.level_complete,
                                      transitionActive := true },
      visualEffects := e.visualEffects ++
        [createLevelTransitionEffect now e.currentLevelIndex],
      pending := e.pending ++
        [{ kind := PendingKind.proceedToNextLevel, due := now + 3000 }] }

/-- Source `proceedToNextLevel()` — the body of the deferred callback scheduled by
`triggerLevelTransition`. It performs no status check: it awards the bonus
score and increments `level`, advances `currentLevelIndex`, and either
starts the next level (status `'playing'`, counters reset, portals cleared,
new dimension `newDim` drawn at random, level timer restarted at `now`) or
ends the game (status `'gameover'`) when levels are exhausted. -/
def proceedToNextLevel (newDim : String) (now : ℚ) (e : Engine) : Engine :=
  let e₁ := match getCurrentLevel e with
    | some lvl =>
      { e with gameState := { e.gameState with
          score := e.gameState.score + lvl.bonusScore,
          level := e.gameState.level + 1 } }
    | none => e
  let idx := e₁.currentLevelIndex + 1
  if h : idx < levels.length then
    let nextLvl := levels.get ⟨idx, h⟩
    { e₁ with
      currentLevelIndex := idx,
      gameState := { e₁.gameState with
        status := GameStatus.playing, transitionActive := false,
        portalsHit := 0, portalsTotal := 0,
        currentDifficulty := nextLvl.difficulty,
        currentSong := nextLvl.music },
      currentDimension := newDim,
      portals := [],
      levelStartTime := now }
  else
    { e₁ with currentLevelIndex := idx,
              gameState := { e₁.gameState with status := GameStatus.gameover } }

/-- Source `checkLevelCompletion()`: updates `levelProgress` to
`(portalsHit / requiredHits) * 100` and calls `triggerLevelTransition` when
the requirement is met. -/
def checkLevelCompletion (now : ℚ) (e : Engine) : Engine :=
  match getCurrentLevel e with
  | none => e
  | some lvl =>
    let progress := ((e.gameState.portalsHit : ℚ) / (lvl.requiredHits : ℚ)) * 100
    let e₁ := { e with gameState := { e.gameState with levelProgress := progress } }
    if lvl.requiredHits ≤ e₁.gameState.portalsHit then
      triggerLevelTransition now e₁
    else e₁

/-- Source `handlePortalHit(portal, whip)`: judges timing via `hitJudgement` on
`|Date.now() - portal.targetTime|`; on a non-miss it tags the portal,
scores, triggers the travel sequence, pushes the hit effect, increments the
hit counters, checks level completion, removes the portal by id, and sets
`whip.hitDetection = false` (the whip object is mutated in place, returned
here as the second component). A miss leaves everything unchanged. -/
def handlePortalHit (now : ℚ) (p : Portal) (w : Whip) (e : Engine) :
    Engine × Whip :=
  let timeDiff := |now - p.targetTime|
  let (quality, score) := hitJudgement p.beatMatch timeDiff
  if quality ≠ Quality.miss then
    let portals₁ := e.portals.map fun q =>
      if q.id = p.id then { q with hitQuality := some quality } else q
    let e₁ := { e with portals := portals₁,
                       gameState := handleScore e.gameState quality score }
    let e₂ := triggerPortalTravel now p e₁
    let e₃ := { e₂ with visualEffects := e₂.visualEffects ++
                  [createHitEffect now p quality] }
    let e₄ := { e₃ with gameState := { e₃.gameState with
                  portalsHit := e₃.gameState.portalsHit + 1,
                  portalsTotal := e₃.gameState.portalsTotal + 1 } }
    let e₅ := checkLevelCompletion now e₄
    let e₆ := { e₅ with portals := e₅.portals.filter fun q => q.id ≠ p.id }
    (e₆, { w with hitDetection := false })
  else
    (e, w)

/-- One whip's pass of `checkCollisions`: when the whip's `hitDetection`
flag is set, every `'active'`-position portal of the current portal array
is tested in order; the flag is read once before the loop (as in the
source) and not re-checked inside it. -/
def resolveWhip (now W H : ℚ) (w : Whip) (e : Engine) : Engine × Whip :=
  if !w.hitDetection then (e, w)
  else
    e.portals.foldl
      (fun (acc : Engine × Whip) p =>
        if p.position ≠ PortalPosition.active then acc
        else if isWhipCollidingWithPortal W H acc.2 p then
          handlePortalHit now p acc.2 acc.1
        else acc)
      (e, w)

/-- Source `checkCollisions()`: iterates over the whip array (whose membership
never changes during the pass; only whip objects are mutated), resolving
each whip against the portals in turn. -/
def checkCollisions (now W H : ℚ) (e : Engine) : Engine :=
  let step := e.activeWhips.foldl
    (fun (acc : Engine × List Whip) w =>
      let (e', w') := resolveWhip now W H w acc.1
      (e', acc.2 ++ [w']))
    (e, [])
  { step.1 with activeWhips := step.2 }

/-- The external reads performed by `fireWhip`: the input-manager queries
(touch state, cursor/touch speed and velocity) and the `Math.random()`
draws (wave phase, control-point jitter — supplied as the already-scaled
offsets), plus the wall clock. -/
structure FireInputs where
  hasActiveTouch : Bool
  touchSpeed : ℚ
  touchVelocity : Vec2
  mouseSpeed : ℚ
  mouseVelocity : Vec2
  randPhase : ℚ
  ctrlJitterX : ℚ
  ctrlJitterY : ℚ
  now : ℚ
  deriving DecidableEq, Repr

/-- Source `createWavePattern(cursorSpeed, cursorVelocity)`:
`speedFactor = min(cursorSpeed / 1000, 2)`; amplitude `20 + sf*30`,
frequency `2 + sf*3`, random phase, decay `0.8`, sawtooth above `sf > 1`
else sine. -/
def createWavePattern (cursorSpeed : ℚ) (randPhase : ℚ) : WavePattern :=
  let speedFactor := min (cursorSpeed / 1000) 2
  { amplitude := 20 + speedFactor * 30,
    frequency := 2 + speedFactor * 3,
    phase := randPhase,
    decay := 0.8,
    waveType := if 1 < speedFactor then WaveType.sawtooth else WaveType.sine }

/-- The touch-pulse particle effect of `createTouchVisualFeedback` (pushed
only for touch input). -/
def createTouchFeedbackEffect (W H now : ℚ) (pos : Vec2) : VisualEffect :=
  { id := "touch_feedback_", type := "particle",
    position := { x := pos.x / W, y := pos.y / H, z := 0 },
    startTime := now, duration := 300,
    data := EffectData.touchPulse "#00FFFF" 8 }

/-- Source `fireWhip(targetPosition)`: a strict no-op unless the status is
`'playing'`; otherwise reads the cursor/touch speed, builds the wave
pattern and the curved trajectory from the canvas center (`W`/`H` the
canvas size), computes `whipVelocity = 0.5 + min(cursorSpeed/500, 2)*0.5`,
pushes the new whip, pushes the touch-feedback effect (touch input only)
and the wave-trail effect. -/
def fireWhip (W H : ℚ) (inp : FireInputs) (targetPosition : Vec2) (e : Engine) :
    Engine :=
  if e.gameState.status ≠ GameStatus.playing then e
  else
    let canvasCenter : Vec2 := { x := W / 2, y := H / 2 }
    let cursorSpeed := if inp.hasActiveTouch then inp.touchSpeed else inp.mouseSpeed
    let isTouchInput := inp.hasActiveTouch
    let wavePattern := createWavePattern cursorSpeed inp.randPhase
    let trajectory : Trajectory :=
      { start := canvasCenter,
        control := { x := (canvasCenter.x + targetPosition.x) / 2 + inp.ctrlJitterX,
                     y := (canvasCenter.y + targetPosition.y) / 2 + inp.ctrlJitterY },
        «end» := targetPosition }
    let speedFactor := min (cursorSpeed / 500) 2
    let whipVelocity := 0.5 + speedFactor * 0.5
    let newWhip : Whip :=
      { id := "whip_", position := canvasCenter, targetPosition := targetPosition,
        trajectory := trajectory, velocity := whipVelocity,
        isActive := true, isExtending := true, extensionProgress := 0,
        trailPoints := [], cosmicEnergy := 1, whipLength := 0, whipAngle := 0,
        createdTime := inp.now, hitDetection := true,
        wavePattern := wavePattern, cursorSpeed := cursorSpeed }
    let e₁ := { e with activeWhips := e.activeWhips ++ [newWhip] }
    let e₂ := if isTouchInput then
        { e₁ with visualEffects := e₁.visualEffects ++
            [createTouchFeedbackEffect W H inp.now targetPosition] }
      else e₁
    let waveTrail : VisualEffect :=
      { id := "whip_trail_", type := "wave_trail",
        position := { x := targetPosition.x / W, y := targetPosition.y / H, z := 0 },
        startTime := inp.now, duration := 1000,
        data := EffectData.waveTrail wavePattern speedFactor isTouchInput }
    { e₂ with visualEffects := e₂.visualEffects ++ [waveTrail] }

/-- The beat-pulse effect of `createBeatPulseEffect`, whose category comes
from the (already incremented) beat counter. -/
def createBeatPulseEffect (now : ℚ) (currentBeat : ℕ) : VisualEffect :=
  let beatType := if currentBeat % 4 = 0 then PortalType.bass
    else if currentBeat % 2 = 0 then PortalType.snare else PortalType.hihat
  { id := "beat_", type := "beat_pulse",
    position := { x := 0.5, y := 0.5, z := 0 },
    startTime := now, duration := 300,
    data := EffectData.beatPulse beatType }

/-- Source `updateBeatSystem(deltaTime)` minus the timer increment (which `update`
performs before calling it): on rollover of `beatTimer` past `beatInterval`
the timer resets, the beat counter increments, the beat sound plays (audio
collaborator), `spawnPortalOnBeat` rolls a spawn chance (the roll outcome
`beatSpawnHappens` and the randomly built portal `beatPortal` are inputs),
and the beat-pulse effect is pushed. -/
def updateBeatSystem (now : ℚ) (beatSpawnHappens : Bool) (beatPortal : Portal)
    (e : Engine) : Engine :=
  if beatInterval ≤ e.beatTimer then
    let beat := e.currentBeat + 1
    let e₁ := { e with beatTimer := 0, currentBeat := beat }
    let e₂ := if beatSpawnHappens then
        { e₁ with portals := e₁.portals ++ [beatPortal] }
      else e₁
    { e₂ with visualEffects := e₂.visualEffects ++ [createBeatPulseEffect now beat] }
  else e

/-- Source `updateLevelProgress()`: no-op without a current level or outside
`'playing'`; otherwise `levelProgress` becomes
`min(max(hitProgress, timeProgress * 0.7), 100)`. -/
def updateLevelProgress (now : ℚ) (e : Engine) : Engine :=
  match getCurrentLevel e with
  | none => e
  | some lvl =>
    if e.gameState.status ≠ GameStatus.playing then e
    else
      let elapsedTime := (now - e.levelStartTime) / 1000
      let timeProgress := elapsedTime / lvl.timeLimit * 100
      let hitProgress := ((e.gameState.portalsHit : ℚ) / (lvl.requiredHits : ℚ)) * 100
      let combinedProgress := max hitProgress (timeProgress * 0.7)
      { e with gameState := { e.gameState with
          levelProgress := min combinedProgress 100 } }

/-- The external inputs of one `update(deltaTime)` tick: wall clock, canvas
size, and the random draws of the two spawn paths. -/
structure TickInputs where
  now : ℚ
  W : ℚ
  H : ℚ
  beatSpawnHappens : Bool
  beatPortal : Portal
  ratePortal : Portal
  deriving DecidableEq, Repr

/-- Source `update(deltaTime)` — the per-tick simulation advance (called from
`gameLoop` only while the status is `'playing'`). `deltaTime` is used
exactly as supplied: the source contains no clamping of negative values.
Order as in the source: time accumulators, beat system, Frogger portals
(movement + rate-based spawn), whips, visual effects, collisions, level
progress, song progress. -/
def update (inp : TickInputs) (deltaTime : ℚ) (e : Engine) : Engine :=
  let e₁ := { e with gameTime := e.gameTime + deltaTime,
                     beatTimer := e.beatTimer + deltaTime * 1000 }
  let e₂ := updateBeatSystem inp.now inp.beatSpawnHappens inp.beatPortal e₁
  let e₃ := updateFroggerPortals deltaTime inp.ratePortal e₂
  let e₄ := { e₃ with activeWhips := updateWhips deltaTime e₃.activeWhips }
  let e₅ := { e₄ with visualEffects := updateVisualEffects inp.now e₄.visualEffects }
  let e₆ := checkCollisions inp.now inp.W inp.H e₅
  let e₇ := updateLevelProgress inp.now e₆
  { e₇ with gameState := { e₇.gameState with
      currentSongProgress := e₇.gameTime / 60 * 100 } }

/-! Concrete fixtures used by witnesses, counterexamples and failing-input
evaluations. -/

/-- The initial `GameState` built by the `GameEngine` constructor. -/
def initialGameState : GameState :=
  { status := GameStatus.menu, score := 0, combo := 0, health := 100,
    level := 1, currentSong := "cosmic_journey", currentSongProgress := 0,
    maxCombo := 0, accuracy := 100, gameMode := "practice",
    levelProgress := 0, portalsHit := 0, portalsTotal := 0,
    currentDifficulty := "easy", transitionActive := false }

/-- The initial game state after `startGame()` put the status to `'playing'`. -/
def gsPlaying : GameState :=
  { initialGameState with status := GameStatus.playing }

/-- A freshly constructed engine (constructor state: menu status, empty
entity collections, level index 0, dimension `cosmic_void`). -/
def baseEngine : Engine :=
  { gameState := initialGameState, portals := [], activeWhips := [],
    visualEffects := [], currentLevelIndex := 0, levelStartTime := 0,
    currentDimension := "cosmic_void", portalSpawnTimer := 0, beatTimer := 0,
    currentBeat := 0, gameTime := 0, audioEnabled := true, pending := [] }

/-- A bass portal as `spawnRandomPortal` builds them (lane 0, level-1 speed,
shown here mid-screen at `x = 0.5`). -/
def samplePortal : Portal :=
  { id := "p1", type := PortalType.bass, x := 0.5, y := 0.3, z := 0,
    size := 0.08, speed := 0.3, horizontalSpeed := 0.5, color := "#8B5A96",
    frequency := 60, frequencyRange := "50-120Hz", spawnTime := 0,
    targetTime := 2000, position := PortalPosition.approach,
    isTraveling := false, travelProgress := 0, isMoving := true,
    travelLane := 0, beatMatch := false, hitQuality := none }

/-- A whip as `fireWhip` builds them, with a degenerate trajectory pinned at
the origin so its head position is `(0, 0)` at every extension progress. -/
def sampleWhip : Whip :=
  { id := "w1", position := { x := 0, y := 0 },
    targetPosition := { x := 0, y := 0 },
    trajectory := { start := { x := 0, y := 0 }, control := { x := 0, y := 0 },
                    «end» := { x := 0, y := 0 } },
    velocity := 1, isActive := true, isExtending := true,
    extensionProgress := 0, trailPoints := [], cosmicEnergy := 1,
    whipLength := 0, whipAngle := 0, createdTime := 0, hitDetection := true,
    wavePattern := { amplitude := 20, frequency := 2, phase := 0,
                     decay := 0.8, waveType := WaveType.sine },
    cursorSpeed := 0 }

/-- An engine mid-play with combo 5, health 50, score 1234 and one active
portal: the state in which a timing miss (diff = 250 ms) is resolved. -/
def missEngine : Engine :=
  { baseEngine with
    gameState := { gsPlaying with combo := 5, health := 50, score := 1234 },
    portals := [{ samplePortal with position := PortalPosition.active }] }

/-- First of two overlapping active beat-matched portals at the canvas
origin, with target time 1000 ms. -/
def hitPortalA : Portal :=
  { samplePortal with
    id := "pA", x := 0, y := 0,
    position := PortalPosition.active, beatMatch := true, targetTime := 1000 }

/-- Second overlapping portal, identical but for its id. -/
def hitPortalB : Portal := { hitPortalA with id := "pB" }

/-- An engine mid-play with one hit-enabled whip over two overlapping
active portals. -/
def doubleHitEngine : Engine :=
  { baseEngine with
    gameState := gsPlaying,
    portals := [hitPortalA, hitPortalB], activeWhips := [sampleWhip] }

/-- A whip whose extension progress is 0.6, about to exceed 1 on a
`deltaTime = 0.25` tick. -/
def clampWhip : Whip := { sampleWhip with extensionProgress := 0.6 }

/-- An engine mid-play with a single moving portal at `x = 0.5`, used to
evaluate `update` on a negative `deltaTime`. -/
def negDeltaEngine : Engine :=
  { baseEngine with gameState := gsPlaying, portals := [samplePortal] }

/-- Tick inputs for the negative-`deltaTime` evaluation: wall clock 0,
100×100 canvas, no beat-spawn roll. -/
def negDeltaInputs : TickInputs :=
  { now := 0, W := 100, H := 100, beatSpawnHappens := false,
    beatPortal := samplePortal, ratePortal := samplePortal }

/-- Concrete `fireWhip` inputs (mouse input, zero speed, zero jitter). -/
def sampleFireInputs : FireInputs :=
  { hasActiveTouch := false, touchSpeed := 0,
    touchVelocity := { x := 0, y := 0 }, mouseSpeed := 0,
    mouseVelocity := { x := 0, y := 0 }, randPhase := 0,
    ctrlJitterX := 0, ctrlJitterY := 0, now := 0 }

/-! Helper lemmas shared between claims. -/

/-- Moving a portal never changes its id. -/
theorem movePortal_id {d : ℚ} {p p' : Portal} (h : movePortal d p = some p') :
    p'.id = p.id := by
  unfold movePortal at h
  by_cases hm : p.isMoving
  · simp only [hm, if_true] at h
    by_cases hx : (1.2 : ℚ) < p.x + p.horizontalSpeed * d
    · simp [hx] at h
    · simp only [hx, if_false] at h
      cases h
      rfl
  · simp only [hm] at h
    cases h
    rfl

/-- The movement loop introduces no new portal ids. -/
theorem moveFroggerPortals_id_subset {d : ℚ} {ps : List Portal} {i : String}
    (h : i ∈ (moveFroggerPortals d ps).map Portal.id) :
    i ∈ ps.map Portal.id := by
  rcases List.mem_map.mp h with ⟨p', hp', rfl⟩
  rcases List.mem_filterMap.mp hp' with ⟨p, hp, hmove⟩
  exact List.mem_map.mpr ⟨p, hp, (movePortal_id hmove).symm⟩

/-! Claim theorems. -/

/-- Claim C1 (failing-input evaluation): resolving a miss (diff = 250 ms)
from combo 5, health 50, score 1234 awards no score and reduces health by
exactly 1, but leaves the combo at 5 instead of resetting it to 0:
`updateCombo(0)` computes `max(0, combo + 0)`, which never resets. -/
theorem handlePortalMiss_keeps_combo :
    (handlePortalMiss 2250 { samplePortal with position := PortalPosition.active }
        missEngine).gameState.combo = 5 ∧
    (handlePortalMiss 2250 { samplePortal with position := PortalPosition.active }
        missEngine).gameState.health = 49 ∧
    (handlePortalMiss 2250 { samplePortal with position := PortalPosition.active }
        missEngine).gameState.score = 1234 ∧
    missEngine.gameState.combo = 5 := by with_unfolding_all decide

/-- Claim C2 (counterexample): in the live hit-resolution path a
beat-matched portal with diff = 150 ms (> 100 ms) is judged `'hit'` with
base score 400, not `'miss'` with 0. -/
theorem hitJudgement_beatMatch_150_not_miss :
    hitJudgement true 150 = (Quality.hit, 400) ∧
    hitJudgement true 150 ≠ (Quality.miss, 0) := by with_unfolding_all decide

/-- Claim C2 (amended): for a beat-matched portal with diff strictly
greater than 100 ms the judgement falls through to the standard windows:
quality `'hit'` with base score 400 when diff ≤ 200 ms, and `'miss'` with
base score 0 exactly when diff > 200 ms. -/
theorem hitJudgement_beatMatch_late (d : ℚ) (h : 100 < d) :
    hitJudgement true d =
      if d ≤ 200 then (Quality.hit, 400) else (Quality.miss, 0) := by
  have h30 : ¬ d ≤ 30 := by linarith
  have h60 : ¬ d ≤ 60 := by linarith
  have h100 : ¬ d ≤ 100 := by linarith
  simp only [hitJudgement, h30, h60, h100]
  by_cases h200 : d ≤ 200
  · simp [h200]
  · simp [h200]

/-- Witness for `hitJudgement_beatMatch_late` at diff = 250 ms. -/
theorem hitJudgement_beatMatch_late_witness :
    hitJudgement true 250 = (Quality.miss, 0) := by
  have h := hitJudgement_beatMatch_late 250 (by norm_num)
  rw [if_neg (by norm_num : ¬ (250 : ℚ) ≤ 200)] at h
  exact h

/-- Claim C3 (failing-input evaluation): the deferred `proceedToNextLevel`
callback performs no status check. Fired on a fresh engine whose status is
`'menu'` (the status it was scheduled from, `'level_complete'`, is long
gone), it still awards the 1000-point bonus, increments the level, advances
the level index and forces the status back to `'playing'`. -/
theorem proceedToNextLevel_ignores_status :
    baseEngine.gameState.status = GameStatus.menu ∧
    (proceedToNextLevel "stellar_nebula" 5000 baseEngine).gameState.score = 1000 ∧
    (proceedToNextLevel "stellar_nebula" 5000 baseEngine).gameState.level = 2 ∧
    (proceedToNextLevel "stellar_nebula" 5000 baseEngine).gameState.status
      = GameStatus.playing ∧
    (proceedToNextLevel "stellar_nebula" 5000 baseEngine).currentLevelIndex = 1 := by
  with_unfolding_all decide

/-- Claim C4 (failing-input evaluation): one whip over two overlapping
active portals registers BOTH hits in the same collision-resolution pass —
`hitDetection` is cleared by the first hit but never re-checked inside the
portal loop. The hit counter ends at 2 and the score at
1500 + ⌊1500 · 1.02⌋ = 3030. -/
theorem checkCollisions_double_hit :
    (checkCollisions 1000 100 100 doubleHitEngine).gameState.portalsHit = 2 ∧
    (checkCollisions 1000 100 100 doubleHitEngine).gameState.score = 3030 ∧
    (checkCollisions 1000 100 100 doubleHitEngine).portals = [] := by with_unfolding_all decide

/-- Claim C5: the score awarded by `handleScore` is
`floor(baseScore * min(1 + combo*0.02, 3))`; the multiplier is monotone
non-decreasing in the combo, capped at 3, and equals exactly 3 at
combo = 100. -/
theorem handleScore_combo_multiplier :
    (∀ (gs : GameState) (q : Quality) (base : ℤ),
       (handleScore gs q base).score
         = gs.score + ⌊(base : ℚ) * comboMultiplier gs.combo⌋) ∧
    (∀ c₁ c₂ : ℤ, 0 ≤ c₁ → c₁ ≤ c₂ → comboMultiplier c₁ ≤ comboMultiplier c₂) ∧
    (∀ c : ℤ, comboMultiplier c ≤ 3) ∧
    comboMultiplier 100 = 3 := by
  refine ⟨fun gs q base => rfl, fun c₁ c₂ h0 h12 => ?_,
    fun c => min_le_right _ _, by with_unfolding_all decide⟩
  unfold comboMultiplier
  have hc : (c₁ : ℚ) ≤ (c₂ : ℚ) := by exact_mod_cast h12
  have hstep : (1 : ℚ) + (c₁ : ℚ) * 0.02 ≤ 1 + (c₂ : ℚ) * 0.02 := by nlinarith
  exact min_le_min hstep le_rfl

/-- Witness for `handleScore_combo_multiplier` at concrete inputs. -/
theorem handleScore_combo_multiplier_witness :
    (handleScore gsPlaying Quality.good 900).score
        = gsPlaying.score + ⌊(900 : ℚ) * comboMultiplier gsPlaying.combo⌋ ∧
    comboMultiplier 0 ≤ comboMultiplier 50 ∧
    comboMultiplier 7 ≤ 3 ∧
    comboMultiplier 100 = 3 :=
  ⟨handleScore_combo_multiplier.1 gsPlaying Quality.good 900,
   handleScore_combo_multiplier.2.1 0 50 (by norm_num) (by norm_num),
   handleScore_combo_multiplier.2.2.1 7,
   handleScore_combo_multiplier.2.2.2⟩

/-- Claim C6: a moving portal translates by `horizontalSpeed * deltaTime`;
it is removed exactly when the new `x` exceeds 1.2; a surviving portal is
`'active'` exactly when `0.3 < x < 0.7` and `'approach'` otherwise, with
`beatMatch` true exactly on `'active'`; and an id absent from the portal
collection never reappears after an `updateFroggerPortals` advance (spawned
portals carry fresh ids). -/
theorem frogger_portal_advance :
    (∀ (d : ℚ) (p : Portal), p.isMoving = true →
       (movePortal d p = none ↔ 1.2 < p.x + p.horizontalSpeed * d) ∧
       ∀ p', movePortal d p = some p' →
         p'.x = p.x + p.horizontalSpeed * d ∧
         (p'.position = PortalPosition.active ↔ (0.3 < p'.x ∧ p'.x < 0.7)) ∧
         (p'.position ≠ PortalPosition.active →
            p'.position = PortalPosition.approach) ∧
         (p'.beatMatch = true ↔ p'.position = PortalPosition.active)) ∧
    (∀ (d : ℚ) (fresh : Portal) (e : Engine) (i : String),
       i ∉ e.portals.map Portal.id → fresh.id ≠ i →
       i ∉ (updateFroggerPortals d fresh e).portals.map Portal.id) := by
  constructor
  · intro d p hm
    constructor
    · unfold movePortal
      by_cases hx : (1.2 : ℚ) < p.x + p.horizontalSpeed * d
      · simp [hm, hx]
      · simp [hm, hx]
    · intro p' hp'
      unfold movePortal at hp'
      simp only [hm, if_true] at hp'
      by_cases hx : (1.2 : ℚ) < p.x + p.horizontalSpeed * d
      · simp [hx] at hp'
      · simp only [hx, if_false, Option.some.injEq] at hp'
        subst hp'
        refine ⟨rfl, ?_, ?_, ?_⟩
        · by_cases hb : (0.3 : ℚ) < p.x + p.horizontalSpeed * d ∧
              p.x + p.horizontalSpeed * d < 0.7
          · simp [hb]
          · simp [hb]
        · by_cases hb : (0.3 : ℚ) < p.x + p.horizontalSpeed * d ∧
              p.x + p.horizontalSpeed * d < 0.7
          · simp [hb]
          · simp [hb]
        · by_cases hb : (0.3 : ℚ) < p.x + p.horizontalSpeed * d ∧
              p.x + p.horizontalSpeed * d < 0.7
          · simp [hb]
          · simp [hb]
  · intro d fresh e i hi hfresh
    unfold updateFroggerPortals spawnPortals
    rcases hL : getCurrentLevel
        { e with portals := moveFroggerPortals d e.portals } with _ | lvl
    · simp only [hL]
      intro hmem
      exact hi (moveFroggerPortals_id_subset hmem)
    · simp only [hL]
      by_cases ht : 1 / lvl.spawnRate ≤
          ({ e with portals := moveFroggerPortals d e.portals }).portalSpawnTimer + d
      · simp only [ht, if_true]
        intro hmem
        rcases List.mem_map.mp hmem with ⟨p', hp', rfl⟩
        rcases List.mem_append.mp hp' with hmv | hfr
        · exact hi (moveFroggerPortals_id_subset (List.mem_map.mpr ⟨p', hmv, rfl⟩))
        · have hpf : p' = fresh := by simpa using hfr
          exact hfresh (hpf ▸ rfl)
      · simp only [ht, if_false]
        intro hmem
        exact hi (moveFroggerPortals_id_subset hmem)

/-- Witness for `frogger_portal_advance`: a moving portal at x = 0.5 with
speed 0.5 and deltaTime 2 crosses 1.2 and is removed; an id absent from a
fresh engine stays absent after an advance. -/
theorem frogger_portal_advance_witness :
    movePortal 2 samplePortal = none ∧
    "gone" ∉ (updateFroggerPortals 0.2 samplePortal baseEngine).portals.map
      Portal.id :=
  ⟨(frogger_portal_advance.1 2 samplePortal (by with_unfolding_all decide)).1.mpr (by with_unfolding_all decide),
   frogger_portal_advance.2 0.2 samplePortal baseEngine "gone"
     (by with_unfolding_all decide) (by with_unfolding_all decide)⟩

/-- Claim C7 (counterexample): a whip at progress 0.6 advanced by
deltaTime = 0.25 reaches 1.1, is clamped at 1, and is removed on that very
tick — the whip collection is already empty, so nothing remains to be
"removed on the next tick". -/
theorem updateWhips_removes_on_clamp_tick :
    (1 ≤ clampWhip.extensionProgress + (0.25 : ℚ) * 2) ∧
    updateWhips 0.25 [clampWhip] = [] := by with_unfolding_all decide

/-- Claim C7 (amended): each tick a whip's `extensionProgress` increases by
exactly `deltaTime * 2` while the result stays below 1; as soon as the
result reaches or exceeds 1 the whip is dropped on that same tick. -/
theorem whip_extension_step :
    (∀ (d : ℚ) (ws : List Whip), updateWhips d ws = ws.filterMap (stepWhip d)) ∧
    (∀ (d : ℚ) (w : Whip),
       (1 ≤ w.extensionProgress + d * 2 → stepWhip d w = none) ∧
       (w.extensionProgress + d * 2 < 1 →
          ∃ w', stepWhip d w = some w' ∧
            w'.extensionProgress = w.extensionProgress + d * 2 ∧
            w'.id = w.id ∧ w'.isActive = w.isActive)) := by
  refine ⟨fun d ws => rfl, fun d w => ⟨fun h => ?_, fun h => ?_⟩⟩
  · unfold stepWhip
    simp [h]
  · unfold stepWhip
    rw [if_neg (not_le.mpr h)]
    exact ⟨_, rfl, rfl, rfl, rfl⟩

/-- Witness for `whip_extension_step` at concrete whips. -/
theorem whip_extension_step_witness :
    stepWhip 0.25 clampWhip = none ∧
    (∃ w', stepWhip 0.1 sampleWhip = some w' ∧
       w'.extensionProgress = sampleWhip.extensionProgress + 0.1 * 2 ∧
       w'.id = sampleWhip.id ∧ w'.isActive = sampleWhip.isActive) :=
  ⟨(whip_extension_step.2 0.25 clampWhip).1 (by with_unfolding_all decide),
   (whip_extension_step.2 0.1 sampleWhip).2 (by with_unfolding_all decide)⟩

/-- Claim C8 (failing-input evaluation): `update` applies a negative
`deltaTime` as-is — no clamping exists anywhere on the path. With
deltaTime = −0.2 s a moving portal at x = 0.5 moves BACKWARDS to x = 0.4
and the game clock itself runs backwards. -/
theorem update_applies_negative_delta :
    negDeltaEngine.portals.map Portal.x = [1/2] ∧
    (update negDeltaInputs (-(1/5)) negDeltaEngine).portals.map Portal.x
      = [2/5] ∧
    (update negDeltaInputs (-(1/5)) negDeltaEngine).gameTime = -(1/5) := by
  with_unfolding_all decide

/-- Claim C9: after every `updateHealth`, health lies in [0, 100], and
whenever the updated health is 0 the status becomes `'gameover'`,
whatever the prior status was. -/
theorem updateHealth_bounds_gameover :
    ∀ (gs : GameState) (change : ℚ),
      0 ≤ (updateHealth gs change).health ∧
      (updateHealth gs change).health ≤ 100 ∧
      ((updateHealth gs change).health = 0 →
         (updateHealth gs change).status = GameStatus.gameover) := by
  intro gs change
  unfold updateHealth endGame
  by_cases h : max 0 (min 100 (gs.health + change)) ≤ 0
  · simp only [h, if_true]
    refine ⟨le_max_left _ _, max_le (by norm_num) (min_le_left _ _), fun _ => ?_⟩
    trivial
  · simp only [h, if_false]
    exact ⟨le_max_left _ _, max_le (by norm_num) (min_le_left _ _),
      fun h0 => absurd (le_of_eq h0) h⟩

/-- Witness for `updateHealth_bounds_gameover`: a −200 health change from
any prior status zeroes health and forces `'gameover'`. -/
theorem updateHealth_bounds_gameover_witness :
    (updateHealth gsPlaying (-200)).health = 0 ∧
    0 ≤ (updateHealth gsPlaying (-200)).health ∧
    (updateHealth gsPlaying (-200)).health ≤ 100 ∧
    (updateHealth gsPlaying (-200)).status = GameStatus.gameover :=
  ⟨by with_unfolding_all decide, (updateHealth_bounds_gameover gsPlaying (-200)).1,
   (updateHealth_bounds_gameover gsPlaying (-200)).2.1,
   (updateHealth_bounds_gameover gsPlaying (-200)).2.2 (by with_unfolding_all decide)⟩

/-- Claim C10: `fireWhip` is a strict no-op whenever the status is not
`'playing'`: the whole engine state — whips, visual effects, game state —
is returned unchanged. -/
theorem fireWhip_noop_outside_playing :
    ∀ (W H : ℚ) (inp : FireInputs) (target : Vec2) (e : Engine),
      e.gameState.status ≠ GameStatus.playing →
      fireWhip W H inp target e = e := by
  intro W H inp target e h
  unfold fireWhip
  rw [if_pos h]

/-- Witness for `fireWhip_noop_outside_playing` on a menu-status engine. -/
theorem fireWhip_noop_outside_playing_witness :
    fireWhip 100 100 sampleFireInputs { x := 10, y := 10 } baseEngine
      = baseEngine :=
  fireWhip_noop_outside_playing 100 100 sampleFireInputs
    { x := 10, y := 10 } baseEngine (by with_unfolding_all decide)

end WormholeRhythm
